import Mathlib

/-!
Shallow embedding of `internal/webpagetest.py` (WebPageTest agent fork):
the job-acquisition routine `get_test` (source lines 147-208), the
network-failure handler that feeds the outage clock (lines 194-200), the
constructor fragments that configure the polled endpoint (lines 78-101),
and the custom-metric loader `load_local_custom_metrics` (lines 126-145).

The network is modelled as an environment `env : ℕ → Event` assigning to
each would-be GET attempt (indexed by the `count` value at the top of the
loop iteration) the monotonic-clock time at which it completes and its
outcome: a response body, a `requests.exceptions.RequestException`
(timeouts, connection errors, ... — caught by the first handler), or any
other exception raised inside the `try` block (caught by the generic
`except Exception` handler).  JSON parsing (`json.loads`) is abstracted as
`parse : String → Option α`: `none` means the parse raised, which the
generic handler absorbs.  Monotonic time is modelled as `ℚ`.

Observable side effects (GET requests with their URLs, `time.sleep(0.1)`
delays, reboot requests, the critical configuration log) are collected in
a `Trace`; the object state mutated by the routine is an `AgentState`.
-/

namespace WPT

/-- Outcome of one `self.session.get(url, timeout=10, proxies=proxies)`
attempt (source line 176).  `netError` carries the optional HTTP status
code that the handler logs when `err.response` is present (lines
184-188). -/
inductive NetOutcome where
  | netError (status : Option ℕ)
  | body (text : String)
  | otherError
deriving DecidableEq, Repr

/-- True exactly for the `requests.exceptions.RequestException` outcome. -/
def NetOutcome.isNetError : NetOutcome → Bool
  | netError _ => true
  | _ => false

/-- One network event: the monotonic time `now` at which the attempt
resolves (the value `monotonic()` would return at line 194) and its
outcome. -/
structure Event where
  now : ℚ
  outcome : NetOutcome
deriving DecidableEq, Repr

/-- The fields of the `WebPageTest` object that `get_test` reads or
writes, together with the configuration it consults.  `pubsub` stands
for `self.options.pubsub`.  Fields of the object not touched by the
modelled routines (sessions, queues, location, credentials, ...) are
omitted. -/
structure AgentState (α : Type) where
  is_rebooting : Bool
  is_dead : Bool
  pubsub : Bool
  work_servers : List String
  scheduler_nodes : List String
  url : String
  first_failure : Option ℚ
  raw_job : Option α
deriving DecidableEq, Repr

/-- Observable side effects of one `get_test` call: number of GET
attempts issued, the URL of each GET in order, number of
`time.sleep(0.1)` delays, number of reboot requests, and whether the
critical no-endpoints configuration error was logged (lines 156-159). -/
structure Trace where
  attempts : ℕ
  urls : List String
  sleeps : ℕ
  reboots : ℕ
  criticalLogged : Bool
deriving DecidableEq, Repr

/-- The trace of a call that has performed no side effect yet. -/
def Trace.empty : Trace := ⟨0, [], 0, 0, false⟩

/-- Result of a `get_test` call: the returned job (`none` = absent), the
final object state, and the side-effect trace. -/
structure FetchResult (α : Type) where
  job : Option α
  state : AgentState α
  trace : Trace
deriving DecidableEq, Repr

/-- The fixed query string appended to `self.url` at source line 172. -/
def workQuery : String := "getwork.php?f=json&shards=1&reboot=1&servers=1&testinfo=1"

/-- Modelled from the spec: the body of `self.reboot()` is not part of
the source excerpt (only its call site at line 199 is).  Per the spec,
the reboot transition is a one-way latch (`is_rebooting` false→true)
that requests one external reboot action; the request itself is counted
in the trace by the caller. -/
def reboot {α : Type} (st : AgentState α) : AgentState α :=
  { st with is_rebooting := true }

/-- The `requests.exceptions.RequestException` handler body, lines
194-199 (the `time.sleep(0.1)` at line 200 is recorded by the caller):
if `self.first_failure is None` set it to `now`, compute
`elapsed = now - self.first_failure`, and call `self.reboot()` when
`elapsed > 1800`.  Returns the new state and whether a reboot was
requested. -/
def handle_failure {α : Type} (st : AgentState α) (now : ℚ) : AgentState α × Bool :=
  let t0 := st.first_failure.getD now
  let st1 := { st with first_failure := some t0 }
  let elapsed := now - t0
  if elapsed > 1800 then (reboot st1, true) else (st1, false)

/-- One iteration of the polling loop body (lines 172-206), for the
attempt whose pre-increment `count` value is `count`: build the URL from
`self.url` (line 172), issue the GET (line 176), and dispatch on the
outcome.  An empty body leaves `response_text = None` so `job` is
unchanged (line 177); a non-empty body is fed to `json.loads`
(line 180), whose failure is absorbed by the generic handler (lines
202-206); a `RequestException` runs the failure handler and sleeps
100 ms (lines 182-200).  Returns the updated `(job, state, trace)`. -/
def run_attempt {α : Type} (parse : String → Option α) (env : ℕ → Event) (count : ℕ)
    (job : Option α) (st : AgentState α) (tr : Trace) :
    Option α × AgentState α × Trace :=
  let url := st.url ++ workQuery
  let tr1 := { tr with attempts := tr.attempts + 1, urls := tr.urls ++ [url] }
  match (env count).outcome with
  | .body s =>
      if s = "" then (job, st, tr1)
      else
        match parse s with
        | some j => (some j, st, tr1)
        | none => (job, st, tr1)
  | .netError _ =>
      let fr := handle_failure st (env count).now
      (job, fr.1,
       { tr1 with sleeps := tr1.sleeps + 1,
                  reboots := tr1.reboots + (if fr.2 then 1 else 0) })
  | .otherError => (job, st, tr1)

/-- The `while count < 3 and retry` loop, lines 167-206, structurally
recursive on `remaining = 3 - count` (so `remaining = 0` exactly when
`count < 3` fails; the initial call passes `remaining = 3`,
`count = 0`, `retry = True`).  `retry` is set to `False` at the top of
every iteration (line 170) and is never re-armed anywhere in the body,
so every recursive call passes `false`. -/
def get_test_loop {α : Type} (parse : String → Option α) (env : ℕ → Event) :
    ℕ → ℕ → Bool → Option α → AgentState α → Trace → FetchResult α
  | 0, _count, _retry, job, st, tr => ⟨job, st, tr⟩
  | remaining + 1, count, retry, job, st, tr =>
    if retry then
      let a := run_attempt parse env count job st tr
      get_test_loop parse env remaining (count + 1) false a.1 a.2.1 a.2.2
    else ⟨job, st, tr⟩

/-- `get_test` (lines 147-208).  Line 149: return absent immediately when
rebooting, dead, or in push-delivery (pubsub) mode.  Lines 155-160: with
no work servers and no scheduler nodes, log a critical configuration
error and return absent.  Otherwise `job = None`, `self.raw_job = None`
(lines 162-163; the local copies of `scheduler_nodes` and `servers` made
at lines 164-165 are never read afterwards), then the polling loop runs
and the final `job` is returned (line 208). -/
def get_test {α : Type} (parse : String → Option α) (env : ℕ → Event)
    (st : AgentState α) : FetchResult α :=
  if st.is_rebooting || st.is_dead || st.pubsub then ⟨none, st, Trace.empty⟩
  else if st.work_servers.length = 0 ∧ st.scheduler_nodes.length = 0 then
    ⟨none, st, { Trace.empty with criticalLogged := true }⟩
  else
    get_test_loop parse env 3 0 true none { st with raw_job := none } Trace.empty

/-- Lines 83-84 of `__init__`: the literal server name
`www.webpagetest.org` is canonicalised to a full URL before splitting. -/
def canonical_server (s : String) : String :=
  if s = ("www.webpagetest.org") then ("http://www.webpagetest.org/") else s

/-- Lines 81-85 of `__init__`: `self.work_servers` is the comma-split of
`options.server` when that option is present, else `[]`. -/
def init_work_servers : Option String → List String
  | none => []
  | some s => (canonical_server s).splitOn (",")

/-- Lines 80-86 of `__init__`: `self.url` starts as `''` and becomes
`str(self.work_servers[0])` when `options.server` is present.  A
comma-split is never empty, so the first entry is `headD` with an
irrelevant default. -/
def init_url (server : Option String) : String :=
  (init_work_servers server).headD ("")

/-- Lines 99-101 of `__init__`: `self.scheduler_nodes` is the comma-split
of `options.schedulernode` when present, else `[]`. -/
def init_scheduler_nodes : Option String → List String
  | none => []
  | some s => s.splitOn (",")

/-- A file of the metrics directory as seen by
`load_local_custom_metrics`: its basename, whether `open(file, 'rt')`
followed by `f.read()` succeeds, and the contents read. -/
structure MetricFile where
  name : String
  readable : Bool
  contents : String
deriving DecidableEq, Repr

/-- Which basenames `glob.glob(metrics_dir + '/*.js')` (line 132)
matches: the name ends in `.js` (its last three characters, read from
the right, are `s`, `j`, `.`), and glob's `*` does not match a leading
dot. -/
def glob_js_match (name : String) : Bool :=
  (name.data.reverse.take 3 == ['s', 'j', '.']) && !(name.data.head? == some ('.'))

/-- `os.path.basename(file)[:-3]` (line 138): the basename with its last
three characters (the `.js` extension) removed. -/
def metric_key (f : MetricFile) : String :=
  String.mk (f.name.data.take (f.name.data.length - 3))

/-- The body of the `for file in files` loop (lines 133-145) acting on
the `custom_metrics` dict, modelled as a finite map: if the file cannot
be opened or read the exception is swallowed (`except: pass`); if the
value read is empty the `if metric_value:` guard skips it; otherwise the
dict entry for the stripped basename is set to the contents. -/
def add_metric (custom_metrics : String → Option String) (file : MetricFile) :
    String → Option String :=
  if file.readable then
    if file.contents != "" then
      fun k => if k = metric_key file then some file.contents else custom_metrics k
    else custom_metrics
  else custom_metrics

/-- `load_local_custom_metrics` (lines 126-145) over a model of the
metrics directory: glob selects the `*.js` basenames, then the loop
folds `add_metric` over them starting from the empty dict
(`self.custom_metrics = {}` at line 115). -/
def load_local_custom_metrics (files : List MetricFile) : String → Option String :=
  (files.filter (fun f => glob_js_match f.name)).foldl add_metric (fun _ => none)

/-- A file contributes an entry exactly when glob matches it, it is
readable, and its contents are non-empty. -/
def contributes (f : MetricFile) : Bool :=
  glob_js_match f.name && (f.readable && (f.contents != ""))

/-- A healthy, configured agent state (one work server, no outage
recorded), used to instantiate the theorems on concrete inputs. -/
def stOK {α : Type} : AgentState α :=
  ⟨false, false, false, [("http://a/")], [], ("http://a/"), none, none⟩

/-- `stOK` with the outage clock already set to time 5. -/
def stFF : AgentState Unit :=
  ⟨false, false, false, [("http://a/")], [], ("http://a/"), some 5, none⟩

/-- `stOK` with the outage clock already set to time 0. -/
def stFF0 : AgentState Unit :=
  ⟨false, false, false, [("http://a/")], [], ("http://a/"), some 0, none⟩

/-- A dead but otherwise configured agent state. -/
def stDead : AgentState Unit :=
  ⟨false, true, false, [("http://a/")], [], ("http://a/"), none, none⟩

/-- A dead agent state with no work servers and no scheduler nodes and
push delivery off. -/
def stDeadNoCfg : AgentState Unit :=
  ⟨false, true, false, [], [], (""), none, none⟩

/-- A live agent state with no work servers and no scheduler nodes and
push delivery off. -/
def stNoCfg : AgentState Unit :=
  ⟨false, false, false, [], [], (""), none, none⟩

/-- A parse function that never succeeds (no attempt in the scenarios
using it reaches a non-empty body). -/
def parseNone : String → Option Unit := fun _ => none

/-- A concrete JSON-parse model for the witnesses: the body `42` parses
to the job `42`, anything else is malformed and raises. -/
def parse42 : String → Option ℕ := fun s => if s = ("42") then some 42 else none

/-- Environment: every attempt returns an empty body at time 0. -/
def envEmptyBody : ℕ → Event := fun _ => ⟨0, .body ("")⟩

/-- Environment: every attempt fails with a connection-level error
carrying HTTP status 500, at time 0. -/
def envFailAll : ℕ → Event := fun _ => ⟨0, .netError (some 500)⟩

/-- Environment: attempt 1 fails with a network error; every later
attempt would return the body `42`, which parses as a job. -/
def envFailThenJob : ℕ → Event :=
  fun i => if i = 0 then ⟨0, .netError none⟩ else ⟨1, .body ("42")⟩

/-- Environment: every attempt fails with a network error at time 1801. -/
def envLate : ℕ → Event := fun _ => ⟨1801, .netError none⟩

/-- Environment: every attempt returns the body `42` at time 0. -/
def envJob : ℕ → Event := fun _ => ⟨0, .body ("42")⟩

/-- Environment: every attempt returns a body that is not valid JSON. -/
def envBadBody : ℕ → Event := fun _ => ⟨0, .body ("notjson")⟩

/-- An empty but readable and glob-matched metric file. -/
def emptyMetricFile : MetricFile := ⟨("empty.js"), true, ("")⟩

/-- A small model of a metrics directory: one loadable metric, one
unreadable file, one file glob does not match, one empty file. -/
def metricsDirSample : List MetricFile :=
  [⟨("alpha.js"), true, ("ALPHA")⟩, ⟨("broken.js"), false, ("X")⟩,
   ⟨("notes.txt"), true, ("Y")⟩, ⟨("empty.js"), true, ("")⟩]

theorem band_eq_true {a b : Bool} : (a && b) = true ↔ a = true ∧ b = true := by
  cases a <;> cases b <;> simp

theorem get_test_loop_false {α : Type} (parse : String → Option α) (env : ℕ → Event)
    (r count : ℕ) (job : Option α) (st : AgentState α) (tr : Trace) :
    get_test_loop parse env r count false job st tr = ⟨job, st, tr⟩ := by
  cases r <;> rfl

theorem get_test_loop_run {α : Type} (parse : String → Option α) (env : ℕ → Event)
    (r count : ℕ) (job : Option α) (st : AgentState α) (tr : Trace) :
    get_test_loop parse env (r + 1) count true job st tr =
      ⟨(run_attempt parse env count job st tr).1,
       (run_attempt parse env count job st tr).2.1,
       (run_attempt parse env count job st tr).2.2⟩ := by
  rw [show get_test_loop parse env (r + 1) count true job st tr =
        get_test_loop parse env r (count + 1) false
          (run_attempt parse env count job st tr).1
          (run_attempt parse env count job st tr).2.1
          (run_attempt parse env count job st tr).2.2 from rfl,
      get_test_loop_false]

theorem get_test_loop_start {α : Type} (parse : String → Option α) (env : ℕ → Event)
    (count : ℕ) (job : Option α) (st : AgentState α) (tr : Trace) :
    get_test_loop parse env 3 count true job st tr =
      ⟨(run_attempt parse env count job st tr).1,
       (run_attempt parse env count job st tr).2.1,
       (run_attempt parse env count job st tr).2.2⟩ :=
  get_test_loop_run parse env 2 count job st tr

theorem get_test_run {α : Type} (parse : String → Option α) (env : ℕ → Event)
    (st : AgentState α)
    (hg : (st.is_rebooting || st.is_dead || st.pubsub) = false)
    (hcfg : ¬(st.work_servers.length = 0 ∧ st.scheduler_nodes.length = 0)) :
    get_test parse env st =
      ⟨(run_attempt parse env 0 none { st with raw_job := none } Trace.empty).1,
       (run_attempt parse env 0 none { st with raw_job := none } Trace.empty).2.1,
       (run_attempt parse env 0 none { st with raw_job := none } Trace.empty).2.2⟩ := by
  rw [get_test, if_neg (by simp [hg]), if_neg hcfg, get_test_loop_start]

theorem run_attempt_body {α : Type} (parse : String → Option α) (env : ℕ → Event)
    (count : ℕ) (job : Option α) (st : AgentState α) (tr : Trace) (s : String)
    (h : (env count).outcome = NetOutcome.body s) :
    run_attempt parse env count job st tr =
      ((if s = "" then job else match parse s with | some j => some j | none => job),
       st,
       { tr with attempts := tr.attempts + 1, urls := tr.urls ++ [st.url ++ workQuery] }) := by
  simp only [run_attempt, h]
  by_cases hs : s = ""
  · simp [hs]
  · simp only [if_neg hs]
    cases hp : parse s <;> simp [hp]

theorem run_attempt_netError {α : Type} (parse : String → Option α) (env : ℕ → Event)
    (count : ℕ) (job : Option α) (st : AgentState α) (tr : Trace) (code : Option ℕ)
    (h : (env count).outcome = NetOutcome.netError code) :
    run_attempt parse env count job st tr =
      (job, (handle_failure st (env count).now).1,
       { attempts := tr.attempts + 1,
         urls := tr.urls ++ [st.url ++ workQuery],
         sleeps := tr.sleeps + 1,
         reboots := tr.reboots + (if (handle_failure st (env count).now).2 then 1 else 0),
         criticalLogged := tr.criticalLogged }) := by
  rw [run_attempt, h]

theorem run_attempt_other {α : Type} (parse : String → Option α) (env : ℕ → Event)
    (count : ℕ) (job : Option α) (st : AgentState α) (tr : Trace)
    (h : (env count).outcome = NetOutcome.otherError) :
    run_attempt parse env count job st tr =
      (job, st,
       { tr with attempts := tr.attempts + 1, urls := tr.urls ++ [st.url ++ workQuery] }) := by
  rw [run_attempt, h]

theorem handle_failure_some {α : Type} (st : AgentState α) (now t0 : ℚ)
    (h : st.first_failure = some t0) :
    handle_failure st now =
      (if now - t0 > 1800
        then ({ st with first_failure := some t0, is_rebooting := true }, true)
        else ({ st with first_failure := some t0 }, false)) := by
  rw [handle_failure, h]
  simp only [Option.getD_some, reboot]

theorem handle_failure_none {α : Type} (st : AgentState α) (now : ℚ)
    (h : st.first_failure = none) :
    handle_failure st now = ({ st with first_failure := some now }, false) := by
  rw [handle_failure, h]
  simp only [Option.getD_none, sub_self]
  rw [if_neg (by norm_num)]

theorem get_test_loop_unfold {α : Type} (parse : String → Option α) (env : ℕ → Event)
    (r count : ℕ) (job : Option α) (st : AgentState α) (tr : Trace) :
    get_test_loop parse env (r + 1) count true job st tr =
      get_test_loop parse env r (count + 1) false
        (run_attempt parse env count job st tr).1
        (run_attempt parse env count job st tr).2.1
        (run_attempt parse env count job st tr).2.2 := rfl

theorem run_attempt_urls {α : Type} (parse : String → Option α) (env : ℕ → Event)
    (count : ℕ) (job : Option α) (st : AgentState α) (tr : Trace) :
    (run_attempt parse env count job st tr).2.2.urls = tr.urls ++ [st.url ++ workQuery] := by
  cases h : (env count).outcome with
  | netError code => rw [run_attempt_netError parse env count job st tr code h]
  | body s =>
      rw [run_attempt_body parse env count job st tr s h]
  | otherError => rw [run_attempt_other parse env count job st tr h]

theorem run_attempt_url_preserved {α : Type} (parse : String → Option α) (env : ℕ → Event)
    (count : ℕ) (job : Option α) (st : AgentState α) (tr : Trace) :
    (run_attempt parse env count job st tr).2.1.url = st.url := by
  cases h : (env count).outcome with
  | netError code =>
      rw [run_attempt_netError parse env count job st tr code h]
      rcases hf : st.first_failure with _ | t0
      · rw [handle_failure_none st _ hf]
      · rw [handle_failure_some st _ t0 hf]
        split <;> rfl
  | body s => rw [run_attempt_body parse env count job st tr s h]
  | otherError => rw [run_attempt_other parse env count job st tr h]

theorem get_test_loop_urls_mem {α : Type} (parse : String → Option α) (env : ℕ → Event) :
    ∀ (r count : ℕ) (retry : Bool) (job : Option α) (st : AgentState α) (tr : Trace)
      (u : String),
      u ∈ (get_test_loop parse env r count retry job st tr).trace.urls →
      u ∈ tr.urls ∨ u = st.url ++ workQuery := by
  intro r
  induction r with
  | zero => intro count retry job st tr u hu; exact Or.inl hu
  | succ r ih =>
    intro count retry job st tr u hu
    cases retry with
    | false => rw [get_test_loop_false] at hu; exact Or.inl hu
    | true =>
      rw [get_test_loop_unfold] at hu
      rcases ih (count + 1) false _ _ _ u hu with hmem | heq
      · rw [run_attempt_urls] at hmem
        rcases List.mem_append.mp hmem with h1 | h2
        · exact Or.inl h1
        · exact Or.inr (List.mem_singleton.mp h2)
      · rw [run_attempt_url_preserved] at heq
        exact Or.inr heq

/-- Claim C3: whenever the agent is mid-reboot, marked dead, or in
push-delivery (pubsub) mode, `get_test` returns absent immediately with
no network I/O at all (empty trace: zero GET attempts, no URL requested,
no sleep, no reboot request) and leaves the state unchanged, regardless
of the endpoint configuration. -/
theorem get_test_guarded_returns_absent {α : Type} (parse : String → Option α)
    (env : ℕ → Event) (st : AgentState α)
    (hg : (st.is_rebooting || st.is_dead || st.pubsub) = true) :
    get_test parse env st = ⟨none, st, Trace.empty⟩ := by
  rw [get_test, if_pos hg]

/-- Witness for `get_test_guarded_returns_absent`: a dead agent with a
configured server and an environment that would hand out a job. -/
theorem get_test_guarded_returns_absent_witness :
    get_test parseNone envJob stDead = ⟨none, stDead, Trace.empty⟩ :=
  get_test_guarded_returns_absent parseNone envJob stDead rfl

/-- Claim C4, counterexample to the claim as stated: a dead agent with
zero work servers, zero scheduler nodes and push delivery disabled
satisfies the claim's precondition, yet the call does not log the
critical configuration error (the line-149 guard returns first). -/
theorem get_test_dead_unconfigured_no_critical :
    stDeadNoCfg.work_servers = [] ∧ stDeadNoCfg.scheduler_nodes = [] ∧
    stDeadNoCfg.pubsub = false ∧
    (get_test parseNone envJob stDeadNoCfg).trace.criticalLogged = false := by
  decide

/-- Claim C4 as amended: when additionally the agent is neither
rebooting nor dead, a call with zero work servers, zero scheduler nodes
and push delivery disabled logs the critical configuration error,
returns absent, and makes no network call (empty URL list, zero
attempts, hence no retry). -/
theorem get_test_unconfigured_critical_absent {α : Type} (parse : String → Option α)
    (env : ℕ → Event) (st : AgentState α)
    (hg : (st.is_rebooting || st.is_dead || st.pubsub) = false)
    (hw : st.work_servers = []) (hn : st.scheduler_nodes = []) :
    get_test parse env st = ⟨none, st, { Trace.empty with criticalLogged := true }⟩ := by
  rw [get_test, if_neg (by simp [hg]), if_pos (by simp [hw, hn])]

/-- Witness for `get_test_unconfigured_critical_absent` at a live,
unconfigured agent. -/
theorem get_test_unconfigured_critical_absent_witness :
    get_test parseNone envJob stNoCfg =
      ⟨none, stNoCfg, { Trace.empty with criticalLogged := true }⟩ :=
  get_test_unconfigured_critical_absent parseNone envJob stNoCfg rfl rfl rfl

/-- Claim C1, evidence of the code bug: with every network attempt
failing, the call performs exactly one GET attempt and one 100 ms sleep
and returns absent.  The `retry` flag is assigned `False` at the top of
the loop body (line 170) and never re-armed, so the 3-attempt ceiling of
`while count < 3 and retry` is dead code and no retry ever occurs. -/
theorem get_test_all_failures_one_attempt :
    (get_test parseNone envFailAll (stOK (α := Unit))).trace.attempts = 1 ∧
    (get_test parseNone envFailAll (stOK (α := Unit))).trace.sleeps = 1 ∧
    (get_test parseNone envFailAll (stOK (α := Unit))).job = none := by
  decide

/-- Claim C7, evidence of the code bug: attempt 1 fails with a network
error and the environment would answer attempt 2 with the body `42`,
which parses as a job — yet the call makes only one attempt and returns
absent, because no retry ever occurs. -/
theorem get_test_failure_then_job_not_polled :
    parse42 ("42") = some 42 ∧
    (envFailThenJob 1).outcome = NetOutcome.body ("42") ∧
    (get_test parse42 envFailThenJob (stOK (α := ℕ))).trace.attempts = 1 ∧
    (get_test parse42 envFailThenJob (stOK (α := ℕ))).job = none := by
  decide

/-- Claim C2, counterexample to the claim as stated: a call that ends in
a successful fetch (confirmed empty body, job absent) leaves
`first_failure` set to its previous value `some 5`; it is not reset to
`none`. -/
theorem get_test_empty_success_keeps_first_failure :
    (envEmptyBody 0).outcome = NetOutcome.body ("") ∧
    (get_test parseNone envEmptyBody stFF).job = none ∧
    (get_test parseNone envEmptyBody stFF).state.first_failure = some 5 ∧
    (get_test parseNone envEmptyBody stFF).state.first_failure ≠ none := by
  decide

/-- Claim C2 as amended: a call whose executed attempt receives a
response body (empty body, or a body that parses) never modifies
`first_failure` — the field is only ever assigned inside the
network-failure handler, so a successful fetch leaves the outage clock
unchanged rather than resetting it. -/
theorem get_test_success_preserves_first_failure {α : Type} (parse : String → Option α)
    (env : ℕ → Event) (st : AgentState α) (s : String)
    (hg : (st.is_rebooting || st.is_dead || st.pubsub) = false)
    (hcfg : ¬(st.work_servers.length = 0 ∧ st.scheduler_nodes.length = 0))
    (hs : (env 0).outcome = NetOutcome.body s)
    (_hok : s = "" ∨ (parse s).isSome = true) :
    (get_test parse env st).state.first_failure = st.first_failure := by
  rw [get_test_run parse env st hg hcfg,
      run_attempt_body parse env 0 none _ Trace.empty s hs]

/-- Witness for `get_test_success_preserves_first_failure`: the
outage clock reads `some 5` before and after a successful empty-body
fetch. -/
theorem get_test_success_preserves_first_failure_witness :
    (get_test parseNone envEmptyBody stFF).state.first_failure = stFF.first_failure :=
  get_test_success_preserves_first_failure parseNone envEmptyBody stFF ("")
    rfl (by decide) rfl (Or.inl rfl)

/-- Claim C6: an attempt that receives an empty response body is treated
as success meaning no job: the call returns absent after exactly one
attempt (zero additional attempts), with no sleep, no reboot request,
and no failure recorded in the state. -/
theorem get_test_empty_body_no_retry {α : Type} (parse : String → Option α)
    (env : ℕ → Event) (st : AgentState α)
    (hg : (st.is_rebooting || st.is_dead || st.pubsub) = false)
    (hcfg : ¬(st.work_servers.length = 0 ∧ st.scheduler_nodes.length = 0))
    (hs : (env 0).outcome = NetOutcome.body ("")) :
    (get_test parse env st).job = none ∧
    (get_test parse env st).trace.attempts = 1 ∧
    (get_test parse env st).trace.sleeps = 0 ∧
    (get_test parse env st).trace.reboots = 0 ∧
    (get_test parse env st).state = { st with raw_job := none } := by
  rw [get_test_run parse env st hg hcfg,
      run_attempt_body parse env 0 none _ Trace.empty ("") hs]
  simp [Trace.empty]

/-- Witness for `get_test_empty_body_no_retry` on a healthy configured
agent receiving an empty body. -/
theorem get_test_empty_body_no_retry_witness :
    (get_test parseNone envEmptyBody (stOK (α := Unit))).job = none ∧
    (get_test parseNone envEmptyBody (stOK (α := Unit))).trace.attempts = 1 ∧
    (get_test parseNone envEmptyBody (stOK (α := Unit))).trace.sleeps = 0 ∧
    (get_test parseNone envEmptyBody (stOK (α := Unit))).trace.reboots = 0 ∧
    (get_test parseNone envEmptyBody (stOK (α := Unit))).state =
      { stOK (α := Unit) with raw_job := none } :=
  get_test_empty_body_no_retry parseNone envEmptyBody (stOK (α := Unit))
    rfl (by decide) rfl

/-- Claim C8: every error during an attempt — a network-level
`RequestException`, any other exception, or a non-empty body on which
the JSON parse raises — is absorbed by the two `except` handlers and the
call returns an absent job; no error propagates to the caller (the
embedding of `get_test` is a total function). -/
theorem get_test_absorbs_errors {α : Type} (parse : String → Option α)
    (env : ℕ → Event) (st : AgentState α)
    (herr : (env 0).outcome.isNetError = true ∨
            (env 0).outcome = NetOutcome.otherError ∨
            ∃ s, (env 0).outcome = NetOutcome.body s ∧ s ≠ "" ∧ parse s = none) :
    (get_test parse env st).job = none := by
  by_cases hg : (st.is_rebooting || st.is_dead || st.pubsub) = true
  · rw [get_test, if_pos hg]
  · have hg' : (st.is_rebooting || st.is_dead || st.pubsub) = false := by
      revert hg; cases (st.is_rebooting || st.is_dead || st.pubsub) <;> simp
    by_cases hcfg : st.work_servers.length = 0 ∧ st.scheduler_nodes.length = 0
    · rw [get_test, if_neg (by simp [hg']), if_pos hcfg]
    · rw [get_test_run parse env st hg' hcfg]
      rcases herr with hnet | hother | ⟨s, hs, hne, hp⟩
      · cases ho : (env 0).outcome with
        | netError code => rw [run_attempt_netError parse env 0 none _ Trace.empty code ho]
        | body t => rw [ho] at hnet; simp [NetOutcome.isNetError] at hnet
        | otherError => rw [ho] at hnet; simp [NetOutcome.isNetError] at hnet
      · rw [run_attempt_other parse env 0 none _ Trace.empty hother]
      · rw [run_attempt_body parse env 0 none _ Trace.empty s hs]
        simp [hne, hp]

/-- Witness for `get_test_absorbs_errors`: a malformed (non-JSON)
response body is absorbed and the call returns absent. -/
theorem get_test_absorbs_errors_witness :
    (get_test parse42 envBadBody (stOK (α := ℕ))).job = none :=
  get_test_absorbs_errors parse42 envBadBody (stOK (α := ℕ))
    (Or.inr (Or.inr ⟨("notjson"), rfl, by decide, by decide⟩))

/-- Claim C5: on a failing attempt with the outage clock already set to
`t0`, the reboot collaborator is invoked exactly once if the failure
time exceeds `t0` by strictly more than 1800 seconds (so `t0 + 1801`
reboots and `t0 + 1799` does not), never more than once per call, and
the `is_rebooting` latch is set exactly in that case (making subsequent
calls no-ops). -/
theorem get_test_reboot_threshold {α : Type} (parse : String → Option α)
    (env : ℕ → Event) (st : AgentState α) (t0 : ℚ)
    (hg : (st.is_rebooting || st.is_dead || st.pubsub) = false)
    (hcfg : ¬(st.work_servers.length = 0 ∧ st.scheduler_nodes.length = 0))
    (hff : st.first_failure = some t0)
    (hnet : (env 0).outcome.isNetError = true) :
    ((get_test parse env st).trace.reboots = 1 ↔ (env 0).now - t0 > 1800) ∧
    (get_test parse env st).trace.reboots ≤ 1 ∧
    ((get_test parse env st).state.is_rebooting = true ↔ (env 0).now - t0 > 1800) := by
  have hreb : st.is_rebooting = false := by
    revert hg; cases st.is_rebooting <;> simp
  obtain ⟨code, hcode⟩ : ∃ code, (env 0).outcome = NetOutcome.netError code := by
    cases h : (env 0).outcome with
    | netError c => exact ⟨c, rfl⟩
    | body t => rw [h] at hnet; simp [NetOutcome.isNetError] at hnet
    | otherError => rw [h] at hnet; simp [NetOutcome.isNetError] at hnet
  rw [get_test_run parse env st hg hcfg,
      run_attempt_netError parse env 0 none _ Trace.empty code hcode,
      handle_failure_some { st with raw_job := none } (env 0).now t0 hff]
  by_cases hcmp : (env 0).now - t0 > 1800
  · simp [hcmp, Trace.empty]
  · simp [hcmp, Trace.empty, hreb]

/-- Witness for `get_test_reboot_threshold`: with the clock at 0, a
failure at time 1801 requests exactly one reboot and sets the latch. -/
theorem get_test_reboot_threshold_witness :
    (((get_test parseNone envLate stFF0).trace.reboots = 1 ↔
        (envLate 0).now - 0 > 1800) ∧
     (get_test parseNone envLate stFF0).trace.reboots ≤ 1 ∧
     ((get_test parseNone envLate stFF0).state.is_rebooting = true ↔
        (envLate 0).now - 0 > 1800)) :=
  get_test_reboot_threshold parseNone envLate stFF0 0 rfl (by decide) rfl rfl

/-- Claim C10: every URL polled during a `get_test` call is
`self.url ++ workQuery`, where `self.url` is set up by `__init__` as the
first entry of the comma-split work-server list, or the empty string
when no work servers are configured; scheduler nodes never enter the
polled URL and no attempt switches to a different endpoint. -/
theorem get_test_polls_primary_url {α : Type} (parse : String → Option α)
    (env : ℕ → Event) (st : AgentState α) :
    (∀ u ∈ (get_test parse env st).trace.urls, u = st.url ++ workQuery) ∧
    init_work_servers none = [] ∧ init_url none = "" ∧
    (∀ s : String, init_url (some s) = ((canonical_server s).splitOn (",")).headD ("")) := by
  refine ⟨?_, rfl, rfl, fun s => rfl⟩
  intro u hu
  by_cases hg : (st.is_rebooting || st.is_dead || st.pubsub) = true
  · rw [get_test, if_pos hg] at hu
    simp [Trace.empty] at hu
  · by_cases hcfg : st.work_servers.length = 0 ∧ st.scheduler_nodes.length = 0
    · rw [get_test, if_neg hg, if_pos hcfg] at hu
      simp [Trace.empty] at hu
    · rw [get_test, if_neg hg, if_neg hcfg] at hu
      rcases get_test_loop_urls_mem parse env 3 0 true none _ Trace.empty u hu with
        hmem | heq
      · exact absurd hmem (by simp [Trace.empty])
      · exact heq

/-- Witness for `get_test_polls_primary_url`: on a configured agent, the
one URL actually polled is the primary server plus the fixed query. -/
theorem get_test_polls_primary_url_witness :
    ("http://a/") ++ workQuery = (stOK (α := Unit)).url ++ workQuery :=
  (get_test_polls_primary_url parseNone envJob (stOK (α := Unit))).1
    (("http://a/") ++ workQuery) (by decide)

theorem add_metric_apply (m : String → Option String) (f : MetricFile) (k : String) :
    add_metric m f k =
      if f.readable = true ∧ f.contents ≠ "" ∧ k = metric_key f then some f.contents
      else m k := by
  by_cases hr : f.readable = true <;> by_cases hc : f.contents = "" <;>
    by_cases hk : k = metric_key f <;>
      simp [add_metric, hr, hc, hk, bne_iff_ne]

theorem foldl_add_metric_lookup (fs : List MetricFile) :
    ∀ (m : String → Option String) (k v : String),
      ((fs.filter (fun f => f.readable && (f.contents != ""))).map metric_key).Nodup →
      ((fs.foldl add_metric m) k = some v ↔
        (∃ f ∈ fs, f.readable = true ∧ f.contents ≠ "" ∧ metric_key f = k ∧ f.contents = v) ∨
        ((∀ f ∈ fs, ¬(f.readable = true ∧ f.contents ≠ "" ∧ metric_key f = k)) ∧
          m k = some v)) := by
  induction fs with
  | nil => intro m k v _; simp
  | cons f fs ih =>
    intro m k v hnd
    rw [List.foldl_cons]
    by_cases hf : (f.readable && (f.contents != "")) = true
    · have hr : f.readable = true := (band_eq_true.mp hf).1
      have hc : f.contents ≠ "" := bne_iff_ne.mp (band_eq_true.mp hf).2
      rw [@List.filter_cons_of_pos _ (fun g => g.readable && (g.contents != "")) f fs hf,
          List.map_cons, List.nodup_cons] at hnd
      obtain ⟨hknot, hnd2⟩ := hnd
      by_cases hk : metric_key f = k
      · have hno : ∀ g ∈ fs, ¬(g.readable = true ∧ g.contents ≠ "" ∧ metric_key g = k) := by
          intro g hg hgc
          apply hknot
          rw [hk]
          exact List.mem_map.mpr ⟨g, List.mem_filter.mpr
            ⟨hg, band_eq_true.mpr ⟨hgc.1, bne_iff_ne.mpr hgc.2.1⟩⟩, hgc.2.2⟩
        have hm : add_metric m f k = some f.contents := by
          rw [add_metric_apply, if_pos ⟨hr, hc, hk.symm⟩]
        rw [ih (add_metric m f) k v hnd2]
        constructor
        · rintro (⟨g, hg, hgp⟩ | ⟨_, hmk⟩)
          · exact absurd ⟨hgp.1, hgp.2.1, hgp.2.2.1⟩ (hno g hg)
          · rw [hm] at hmk
            exact Or.inl ⟨f, List.mem_cons_self f fs, hr, hc, hk, Option.some.inj hmk⟩
        · rintro (⟨g, hg, hgp⟩ | ⟨hall, _⟩)
          · rcases List.mem_cons.mp hg with rfl | hg2
            · exact Or.inr ⟨hno, by rw [hm, hgp.2.2.2]⟩
            · exact absurd ⟨hgp.1, hgp.2.1, hgp.2.2.1⟩ (hno g hg2)
          · exact absurd ⟨hr, hc, hk⟩ (hall f (List.mem_cons_self f fs))
      · have hm : add_metric m f k = m k := by
          rw [add_metric_apply, if_neg]
          rintro ⟨_, _, hkk⟩
          exact hk hkk.symm
        rw [ih (add_metric m f) k v hnd2, hm]
        constructor
        · rintro (⟨g, hg, hgp⟩ | ⟨hall, hmk⟩)
          · exact Or.inl ⟨g, List.mem_cons_of_mem f hg, hgp⟩
          · refine Or.inr ⟨?_, hmk⟩
            intro g hg
            rcases List.mem_cons.mp hg with rfl | hg2
            · rintro ⟨_, _, hkk⟩; exact hk hkk
            · exact hall g hg2
        · rintro (⟨g, hg, hgp⟩ | ⟨hall, hmk⟩)
          · rcases List.mem_cons.mp hg with rfl | hg2
            · exact absurd hgp.2.2.1 hk
            · exact Or.inl ⟨g, hg2, hgp⟩
          · exact Or.inr ⟨fun g hg => hall g (List.mem_cons_of_mem f hg), hmk⟩
    · have hfno : ∀ k2, ¬(f.readable = true ∧ f.contents ≠ "" ∧ metric_key f = k2) := by
        rintro k2 ⟨h1, h2, _⟩
        exact hf (band_eq_true.mpr ⟨h1, bne_iff_ne.mpr h2⟩)
      have hm : add_metric m f k = m k := by
        rw [add_metric_apply, if_neg]
        rintro ⟨h1, h2, _⟩
        exact hf (band_eq_true.mpr ⟨h1, bne_iff_ne.mpr h2⟩)
      rw [@List.filter_cons_of_neg _ (fun g => g.readable && (g.contents != "")) f fs hf] at hnd
      rw [ih (add_metric m f) k v hnd, hm]
      constructor
      · rintro (⟨g, hg, hgp⟩ | ⟨hall, hmk⟩)
        · exact Or.inl ⟨g, List.mem_cons_of_mem f hg, hgp⟩
        · refine Or.inr ⟨?_, hmk⟩
          intro g hg
          rcases List.mem_cons.mp hg with rfl | hg2
          · exact hfno k
          · exact hall g hg2
      · rintro (⟨g, hg, hgp⟩ | ⟨hall, hmk⟩)
        · rcases List.mem_cons.mp hg with rfl | hg2
          · exact absurd ⟨hgp.1, hgp.2.1, hgp.2.2.1⟩ (hfno k)
          · exact Or.inl ⟨g, hg2, hgp⟩
        · exact Or.inr ⟨fun g hg => hall g (List.mem_cons_of_mem f hg), hmk⟩

/-- Claim C9, counterexample to the claim as stated: a readable,
glob-matched `*.js` file whose contents are empty produces no entry at
all (the `if metric_value:` guard skips it), instead of an entry with
the empty string as value. -/
theorem load_metrics_empty_file_skipped :
    glob_js_match emptyMetricFile.name = true ∧ emptyMetricFile.readable = true ∧
    load_local_custom_metrics [emptyMetricFile] ("empty") ≠ some ("") ∧
    load_local_custom_metrics [emptyMetricFile] ("empty") = none := by
  decide

/-- Claim C9 as amended: over any directory whose contributing files
have pairwise distinct keys (always the case for distinct basenames),
the loader maps `k` to `v` exactly when some file of the directory is
glob-matched (`*.js`, no leading dot), readable, has non-empty contents
`v`, and basename-without-extension `k`; so unreadable files,
non-matching files, and empty files contribute no entry. -/
theorem load_local_custom_metrics_lookup (files : List MetricFile)
    (hnd : ((files.filter (fun f => contributes f)).map metric_key).Nodup)
    (k v : String) :
    load_local_custom_metrics files k = some v ↔
      ∃ f ∈ files, contributes f = true ∧ metric_key f = k ∧ f.contents = v := by
  have hfilter : (files.filter (fun f => glob_js_match f.name)).filter
        (fun f => f.readable && (f.contents != "")) =
      files.filter (fun f => contributes f) := by
    rw [List.filter_filter]
    exact List.filter_congr (fun f _ => by rw [contributes, Bool.and_comm])
  rw [load_local_custom_metrics,
      foldl_add_metric_lookup _ _ k v (by rw [hfilter]; exact hnd)]
  constructor
  · rintro (⟨g, hg, hgp⟩ | ⟨_, hmk⟩)
    · obtain ⟨hgmem, hggl⟩ := List.mem_filter.mp hg
      exact ⟨g, hgmem,
        band_eq_true.mpr ⟨hggl, band_eq_true.mpr ⟨hgp.1, bne_iff_ne.mpr hgp.2.1⟩⟩,
        hgp.2.2.1, hgp.2.2.2⟩
    · exact absurd hmk (by simp)
  · rintro ⟨g, hg, hgc, hgk, hgv⟩
    obtain ⟨hggl, hghit⟩ := band_eq_true.mp hgc
    obtain ⟨hgr, hgne⟩ := band_eq_true.mp hghit
    exact Or.inl ⟨g, List.mem_filter.mpr ⟨hg, hggl⟩, hgr, bne_iff_ne.mp hgne, hgk, hgv⟩

/-- Witness for `load_local_custom_metrics_lookup` on the sample
directory: the readable non-empty `alpha.js` is the unique source of the
entry `alpha -> ALPHA`. -/
theorem load_local_custom_metrics_lookup_witness :
    ((metricsDirSample.filter (fun f => contributes f)).map metric_key).Nodup ∧
    (load_local_custom_metrics metricsDirSample ("alpha") = some ("ALPHA") ↔
      ∃ f ∈ metricsDirSample, contributes f = true ∧ metric_key f = ("alpha") ∧
        f.contents = ("ALPHA")) :=
  ⟨by decide, load_local_custom_metrics_lookup metricsDirSample (by decide)
    ("alpha") ("ALPHA")⟩

end WPT
